import Mathlib

/-!
Verification of the Contesso contest tracker core logic: contest
normalization, status classification, reconciliation by upsert, bookmark
mutation, time-remaining display, and the theme hook.

Timestamps are modelled as integer milliseconds since the epoch, matching
the JavaScript Date representation used by the source. All divisions in
the source go through JavaScript Math.floor on non-negative quantities,
which coincides with Euclidean division on Int for those inputs; the one
division that can see a negative dividend (the CodeChef duration) uses
floor division, matching Math.floor on negatives.
-/

/-- Temporal status of a contest, from the status field of the Contest
interface in src/unnamed/part_004 (values upcoming, current, past; the
specification calls the middle value ongoing). -/
inductive ContestStatus where
  | upcoming
  | current
  | past
deriving DecidableEq

/-- Status classification from src/unnamed/part_004 lines 122-134 (and the
identical inline ternaries at lines 58-62, 78-82, 103-107, 128-133):
contestStart > now gives upcoming, otherwise contestEnd > now gives
current, otherwise past. -/
def classifyStatus (startTime endTime now : Int) : ContestStatus :=
  if now < startTime then ContestStatus.upcoming
  else if now < endTime then ContestStatus.current
  else ContestStatus.past

/-- Rank of a status in the temporal order upcoming, then current
(ongoing), then past; used to state that classification never moves
backwards as now increases. -/
def statusRank : ContestStatus → Nat
  | ContestStatus.upcoming => 0
  | ContestStatus.current => 1
  | ContestStatus.past => 2

/-- Canonical contest row as upserted into the contests table by
fetchAndSyncContests in src/unnamed/part_004 lines 49-113: the mapped
objects carry id, name, platform, start and end instants, duration in
minutes, url, solution_link and status. -/
structure ContestRec where
  id : String
  name : String
  platform : String
  start_time : Int
  end_time : Int
  duration : Int
  url : String
  solution_link : Option String
  status : ContestStatus
deriving DecidableEq

/-- Raw Codeforces record as consumed by the map at src/unnamed/part_004
lines 49-63: numeric contest id, name, startTimeSeconds and
durationSeconds in seconds. -/
structure CfRaw where
  id : Int
  name : String
  startTimeSeconds : Int
  durationSeconds : Int
deriving DecidableEq

/-- Raw CodeChef record as consumed by the map at src/unnamed/part_004
lines 69-83: contest_code, contest_name, and the parsed start and end
dates as millisecond instants. -/
structure CcRaw where
  contest_code : String
  contest_name : String
  contest_start_ms : Int
  contest_end_ms : Int
deriving DecidableEq

/-- Raw LeetCode record as consumed by the map at src/unnamed/part_004
lines 94-108: titleSlug, title, startTime in seconds, and an optional
duration in seconds (JavaScript treats an absent or zero duration as
falsy and substitutes 5400). -/
structure LcRaw where
  titleSlug : String
  title : String
  startTime : Int
  duration : Option Int
deriving DecidableEq

/-- Codeforces normalization, src/unnamed/part_004 lines 49-63. The id is
the literal prefix cf_ followed by the numeric contest id; the end
instant is start plus duration; duration is floored to minutes; status is
classified against the fetch-time clock. -/
def normalizeCf (now : Int) (r : CfRaw) : ContestRec :=
  { id := "cf_" ++ toString r.id
    name := r.name
    platform := "Codeforces"
    start_time := r.startTimeSeconds * 1000
    end_time := (r.startTimeSeconds + r.durationSeconds) * 1000
    duration := Int.fdiv r.durationSeconds 60
    url := "https://codeforces.com/contest/" ++ toString r.id
    solution_link := none
    status := classifyStatus (r.startTimeSeconds * 1000) ((r.startTimeSeconds + r.durationSeconds) * 1000) now }

/-- CodeChef normalization, src/unnamed/part_004 lines 69-83. The id is
the literal prefix cc_ followed by contest_code; the start and end
instants are passed through from the parsed dates unchanged, with no
validation that the end is not before the start. -/
def normalizeCc (now : Int) (r : CcRaw) : ContestRec :=
  { id := "cc_" ++ r.contest_code
    name := r.contest_name
    platform := "CodeChef"
    start_time := r.contest_start_ms
    end_time := r.contest_end_ms
    duration := Int.fdiv (r.contest_end_ms - r.contest_start_ms) 60000
    url := "https://www.codechef.com/" ++ r.contest_code
    solution_link := none
    status := classifyStatus r.contest_start_ms r.contest_end_ms now }

/-- Effective LeetCode duration in seconds: the source writes
contest.duration or 5400, where JavaScript replaces both an absent and a
zero duration by 5400. -/
def lcEffectiveDuration (d : Option Int) : Int :=
  match d with
  | none => 5400
  | some v => if v = 0 then 5400 else v

/-- LeetCode normalization, src/unnamed/part_004 lines 94-108. The id is
the literal prefix lc_ followed by titleSlug; the end instant is start
plus the effective duration. -/
def normalizeLc (now : Int) (r : LcRaw) : ContestRec :=
  { id := "lc_" ++ r.titleSlug
    name := r.title
    platform := "LeetCode"
    start_time := r.startTime * 1000
    end_time := (r.startTime + lcEffectiveDuration r.duration) * 1000
    duration := match r.duration with
      | none => 90
      | some v => if v = 0 then 90 else Int.fdiv v 60
    url := "https://leetcode.com/contest/" ++ r.titleSlug
    solution_link := none
    status := classifyStatus (r.startTime * 1000) ((r.startTime + lcEffectiveDuration r.duration) * 1000) now }

/-- Row-level upsert with conflict key id, the store semantics of the call
supabase.from(contests).upsert(allContests, onConflict id) at
src/unnamed/part_004 line 114: when a row with the same id exists it is
updated with every supplied column (the incoming record replaces it
wholesale, solution_link included); otherwise the record is inserted. -/
def upsertContest : List ContestRec → ContestRec → List ContestRec
  | [], r => [r]
  | s :: rest, r => if s.id = r.id then r :: rest else s :: upsertContest rest r

/-- Upsert of a whole fetched batch against the persisted store, row by
row in batch order, modelling the single multi-row upsert call at
src/unnamed/part_004 line 114. -/
def upsertBatch (store : List ContestRec) (batch : List ContestRec) : List ContestRec :=
  batch.foldl upsertContest store

/-- Outcome of one upstream source fetch inside fetchAndSyncContests:
either a list of normalized records, or a failure (network error, non-OK
payload, malformed response). -/
inductive SourceResult where
  | ok (records : List ContestRec)
  | failed
deriving DecidableEq

/-- Records contributed by a source outcome when the aggregation reaches
the batch assembly: a failed CodeChef or LeetCode fetch is caught at
src/unnamed/part_004 lines 84-86 and 109-111 and contributes the empty
list. -/
def sourceRecords : SourceResult → List ContestRec
  | SourceResult.ok records => records
  | SourceResult.failed => []

/-- Batch assembly of fetchAndSyncContests, src/unnamed/part_004 lines
44-114. The Codeforces fetch is not individually guarded: a failure (or a
non-OK status, line 48) throws out of the enclosing try, the catch at
lines 137-159 takes over, and no fresh batch is produced (none). The
CodeChef and LeetCode fetches are each wrapped in their own try and a
failure leaves their list empty, so the remaining records still form the
batch allContests at line 113. -/
def aggregateContests (cf cc lc : SourceResult) : Option (List ContestRec) :=
  match cf with
  | SourceResult.failed => none
  | SourceResult.ok cfRecords =>
      some (cfRecords ++ sourceRecords cc ++ sourceRecords lc)

/-- A row of the bookmarks table. The part_004 variant supplies an
explicit id column (contestId_userId); the part_003 variant inserts only
user_id and contest_id, so its rows carry no client-chosen id. -/
structure BookmarkRow where
  id : Option String
  user_id : String
  contest_id : String
deriving DecidableEq

/-- Bookmark upsert issued by toggleBookmark in src/unnamed/part_004
lines 246-250: a row keyed by the id contestId_userId, inserted or
updated in place on conflict. -/
def bmUpsert : List BookmarkRow → String → String → List BookmarkRow
  | [], userId, contestId => [⟨some (contestId ++ "_" ++ userId), userId, contestId⟩]
  | r :: rest, userId, contestId =>
      if r.id = some (contestId ++ "_" ++ userId) then
        ⟨some (contestId ++ "_" ++ userId), userId, contestId⟩ :: rest
      else r :: bmUpsert rest userId contestId

/-- Bookmark insert issued by toggleBookmark in src/unnamed/part_003
lines 90-92: a plain insert of user_id and contest_id with no conflict
key, which simply adds a row. -/
def bmInsert (store : List BookmarkRow) (userId contestId : String) : List BookmarkRow :=
  store ++ [⟨none, userId, contestId⟩]

/-- Bookmark delete issued by both variants (src/unnamed/part_003 lines
77-81, src/unnamed/part_004 line 253): delete every row whose user_id and
contest_id match. -/
def bmDelete (store : List BookmarkRow) (userId contestId : String) : List BookmarkRow :=
  store.filter (fun r => !(r.user_id == userId && r.contest_id == contestId))

/-- toggleBookmark from src/unnamed/part_003 lines 68-100. With no signed
in user it shows a sign-in prompt and returns without touching the store
(result none). Otherwise it consults the client-side bookmarked set: a
contest in the set is removed by delete, one outside it is added by a
plain insert. -/
def toggleBookmarkTabs (user : Option String) (bookmarkedIds : List String)
    (contestId : String) (store : List BookmarkRow) : Option (List BookmarkRow) :=
  match user with
  | none => none
  | some u =>
      if bookmarkedIds.contains contestId then some (bmDelete store u contestId)
      else some (bmInsert store u contestId)

/-- toggleBookmark from src/unnamed/part_004 lines 235-256. The user id
falls back to the placeholder default_user when nobody is signed in (line
237). The contest whose local isBookmarked flag was false before the
toggle is upserted as a bookmark; one whose flag was true is deleted. -/
def toggleBookmarkTracker (user : Option String) (wasBookmarked : Bool)
    (contestId : String) (store : List BookmarkRow) : List BookmarkRow :=
  let userId := match user with | some u => u | none => "default_user"
  if wasBookmarked then bmDelete store userId contestId
  else bmUpsert store userId contestId

/-- Milliseconds in a day. -/
def msPerDay : Int := 86400000

/-- Milliseconds in an hour. -/
def msPerHour : Int := 3600000

/-- Milliseconds in a minute. -/
def msPerMinute : Int := 60000

/-- Displayed time text, abstracted to its computed content: a
day-hour-minute decomposition, a day-hour decomposition (the Bookmarks
page omits minutes), or one of the textual fallbacks Ongoing, Ended,
Started. -/
inductive TimeDisplay where
  | dhm (days hours minutes : Int)
  | dh (days hours : Int)
  | ongoing
  | ended
  | started
deriving DecidableEq

/-- getTimeRemaining from src/unnamed/part_004 lines 265-277: before the
start it decomposes start minus now into whole days, hours and minutes by
flooring; otherwise it reports Ongoing before the end and Ended after. -/
def getTimeRemaining (startTime endTime now : Int) : TimeDisplay :=
  if now < startTime then
    TimeDisplay.dhm (Int.ediv (startTime - now) msPerDay)
      (Int.ediv (Int.emod (startTime - now) msPerDay) msPerHour)
      (Int.ediv (Int.emod (startTime - now) msPerHour) msPerMinute)
  else if now < endTime then TimeDisplay.ongoing
  else TimeDisplay.ended

/-- getTimeRemaining from src/src/pages/Contests.tsx lines 114-123: the
same day-hour-minute flooring of start minus now, with the fallback Ended
once the difference is not positive. -/
def getTimeRemainingTracker (startTime now : Int) : TimeDisplay :=
  if startTime - now ≤ 0 then TimeDisplay.ended
  else
    TimeDisplay.dhm (Int.ediv (startTime - now) msPerDay)
      (Int.ediv (Int.emod (startTime - now) msPerDay) msPerHour)
      (Int.ediv (Int.emod (startTime - now) msPerHour) msPerMinute)

/-- getTimeRemaining from src/unnamed/part_003 lines 102-113: the same
day-hour-minute flooring, with the fallback Started once the difference
is not positive. -/
def getTimeRemainingUpcoming (startTime now : Int) : TimeDisplay :=
  if startTime - now ≤ 0 then TimeDisplay.started
  else
    TimeDisplay.dhm (Int.ediv (startTime - now) msPerDay)
      (Int.ediv (Int.emod (startTime - now) msPerDay) msPerHour)
      (Int.ediv (Int.emod (startTime - now) msPerHour) msPerMinute)

/-- getTimeStatus from src/unnamed/part_008 lines 71-82: before the start
it decomposes start minus now into whole days and hours only, displaying
no minutes component; otherwise it reports Ended. -/
def getTimeStatus (startTime now : Int) : TimeDisplay :=
  if 0 < startTime - now then
    TimeDisplay.dh (Int.ediv (startTime - now) msPerDay)
      (Int.ediv (Int.emod (startTime - now) msPerDay) msPerHour)
  else TimeDisplay.ended

/-- Time remaining as the specification words it: max(0, start minus now)
decomposed into whole days, hours and minutes by truncation. -/
def specTimeRemaining (startTime now : Int) : Int × Int × Int :=
  (Int.ediv (max 0 (startTime - now)) msPerDay,
   Int.ediv (Int.emod (max 0 (startTime - now)) msPerDay) msPerHour,
   Int.ediv (Int.emod (max 0 (startTime - now)) msPerHour) msPerMinute)

/-- Theme value managed by the useTheme hook in src/unnamed/part_009. -/
inductive Theme where
  | light
  | dark
deriving DecidableEq

/-- Theme initialization from src/unnamed/part_009 lines 10-13: the saved
value is kept when it is exactly light or dark, anything else (including
no saved value) defaults to light. -/
def initTheme (savedTheme : Option String) : Theme :=
  match savedTheme with
  | some s => if s = "light" then Theme.light else if s = "dark" then Theme.dark else Theme.light
  | none => Theme.light

/-- Theme toggle from src/unnamed/part_009 lines 24-26: light becomes
dark and dark becomes light. -/
def toggleTheme : Theme → Theme
  | Theme.light => Theme.dark
  | Theme.dark => Theme.light

/-- Persisted contests row before a reconciliation cycle: a curated
solution link is set. -/
def persistedCf1 : ContestRec :=
  { id := "cf_1"
    name := "Codeforces Round 1"
    platform := "Codeforces"
    start_time := 0
    end_time := 7200000
    duration := 120
    url := "https://codeforces.com/contest/1"
    solution_link := some "https://video"
    status := ContestStatus.past }

/-- Freshly fetched record for the same contest: the upstream changed the
name, and the normalized record carries solution_link none, as every
record produced by fetchAndSyncContests does. -/
def incomingCf1 : ContestRec :=
  { id := "cf_1"
    name := "Codeforces Round 1 Div 2"
    platform := "Codeforces"
    start_time := 0
    end_time := 7200000
    duration := 120
    url := "https://codeforces.com/contest/1"
    solution_link := none
    status := ContestStatus.past }

/-- A CodeChef record for the aggregation counterexample. -/
def ccRecA : ContestRec :=
  { id := "cc_START1"
    name := "Starters 1"
    platform := "CodeChef"
    start_time := 0
    end_time := 3600000
    duration := 60
    url := "https://www.codechef.com/START1"
    solution_link := none
    status := ContestStatus.past }

/-- A LeetCode record for the aggregation counterexample. -/
def lcRecA : ContestRec :=
  { id := "lc_weekly-1"
    name := "Weekly Contest 1"
    platform := "LeetCode"
    start_time := 0
    end_time := 5400000
    duration := 90
    url := "https://leetcode.com/contest/weekly-1"
    solution_link := none
    status := ContestStatus.past }

/-- C3: for a contest with end_time at least start_time, the
classification is upcoming exactly when now is before start_time, current
(ongoing) exactly when now is between start_time inclusive and end_time
exclusive, and past exactly when now is at or after end_time. -/
theorem classifyStatus_spec (s e now : Int) (hse : s ≤ e) :
    (classifyStatus s e now = ContestStatus.upcoming ↔ now < s) ∧
    (classifyStatus s e now = ContestStatus.current ↔ s ≤ now ∧ now < e) ∧
    (classifyStatus s e now = ContestStatus.past ↔ e ≤ now) := by
  unfold classifyStatus
  split_ifs with h1 h2 <;> simp_all <;> omega

theorem classifyStatus_spec_witness :
    ((0 : Int) ≤ 100) ∧
    (classifyStatus 0 100 50 = ContestStatus.current ↔ (0 : Int) ≤ 50 ∧ (50 : Int) < 100) :=
  ⟨by decide, (classifyStatus_spec 0 100 50 (by decide)).2.1⟩

/-- C4: for a fixed contest with end_time at least start_time, the status
rank (upcoming below current below past) never decreases as now
increases. -/
theorem classifyStatus_monotone (s e n1 n2 : Int) (hse : s ≤ e) (h12 : n1 ≤ n2) :
    statusRank (classifyStatus s e n1) ≤ statusRank (classifyStatus s e n2) := by
  unfold classifyStatus
  split_ifs <;> simp [statusRank] <;> omega

theorem classifyStatus_monotone_witness :
    statusRank (classifyStatus 0 100 50) ≤ statusRank (classifyStatus 0 100 150) :=
  classifyStatus_monotone 0 100 50 150 (by decide) (by decide)

/-- C10: the theme is one of light and dark; initialization from a stored
value that is neither light nor dark yields light; toggling twice is the
identity and toggling once never fixes the theme. -/
theorem useTheme_spec (saved : Option String) (t : Theme) :
    (saved ≠ some "light" → saved ≠ some "dark" → initTheme saved = Theme.light) ∧
    toggleTheme (toggleTheme t) = t ∧ toggleTheme t ≠ t := by
  refine ⟨?_, ?_, ?_⟩
  · intro h1 h2
    match saved with
    | none => rfl
    | some s =>
        simp only [initTheme]
        rw [if_neg, if_neg]
        · intro hs; exact h2 (by rw [hs])
        · intro hs; exact h1 (by rw [hs])
  · cases t <;> rfl
  · cases t <;> simp [toggleTheme]

theorem useTheme_spec_witness :
    initTheme (some "solarized") = Theme.light ∧
    toggleTheme (toggleTheme Theme.dark) = Theme.dark ∧
    toggleTheme Theme.dark ≠ Theme.dark :=
  ⟨(useTheme_spec (some "solarized") Theme.dark).1 (by decide) (by decide),
   (useTheme_spec (some "solarized") Theme.dark).2.1,
   (useTheme_spec (some "solarized") Theme.dark).2.2⟩

/-- C1: evaluation of the reconciling upsert at the failing input. The
persisted row holds a curated solution link; the freshly fetched record
for the same id carries solution_link none (as every normalized record
does) and a changed name. The upsert replaces the row with the incoming
record wholesale, so the resulting store has solution_link none: the link
is not preserved. -/
theorem upsert_overwrites_solution_link :
    persistedCf1.solution_link = some "https://video" ∧
    incomingCf1.solution_link = none ∧
    upsertBatch [persistedCf1] [incomingCf1] = [incomingCf1] ∧
    (upsertBatch [persistedCf1] [incomingCf1]).map ContestRec.solution_link = [none] := by
  decide

/-- C2 counterexample: when the Codeforces source fails, the whole
aggregation aborts (no fresh batch is assembled), even though the
CodeChef and LeetCode sources succeeded with records in hand, so those
records are not reconciled this cycle. -/
theorem cf_failure_aborts_aggregation :
    aggregateContests SourceResult.failed (SourceResult.ok [ccRecA]) (SourceResult.ok [lcRecA]) = none ∧
    aggregateContests SourceResult.failed (SourceResult.ok [ccRecA]) (SourceResult.ok [lcRecA]) ≠
      some [ccRecA, lcRecA] := by
  decide

/-- C2 amended: whenever the Codeforces fetch succeeds, a failure of
CodeChef or LeetCode (or both) does not abort the aggregation - the batch
still contains the successful sources, with a failed source contributing
zero records; a Codeforces failure, by contrast, always aborts the whole
aggregation. -/
theorem aggregation_partial_failure :
    ∀ (cfRecords : List ContestRec) (cc lc : SourceResult),
    aggregateContests (SourceResult.ok cfRecords) cc lc =
      some (cfRecords ++ sourceRecords cc ++ sourceRecords lc) ∧
    aggregateContests SourceResult.failed cc lc = none :=
  fun _ _ _ => ⟨rfl, rfl⟩

theorem bmUpsert_idem (store : List BookmarkRow) (u c : String) :
    bmUpsert (bmUpsert store u c) u c = bmUpsert store u c := by
  induction store with
  | nil => simp [bmUpsert]
  | cons r rest ih =>
      by_cases h : r.id = some (c ++ "_" ++ u)
      · simp [bmUpsert, h]
      · simp [bmUpsert, h, ih]

theorem bmDelete_idem (store : List BookmarkRow) (u c : String) :
    bmDelete (bmDelete store u c) u c = bmDelete store u c := by
  simp [bmDelete, List.filter_filter]

/-- C5 counterexample: in the part_003 variant, adding a bookmark that is
already present in the store does not leave the state unchanged - the add
path is a plain insert, so a second add of the same (user, contest) pair
appends a duplicate row. -/
theorem insert_bookmark_not_idempotent :
    toggleBookmarkTabs (some "u1") [] "cf_1" [⟨none, "u1", "cf_1"⟩] =
      some [⟨none, "u1", "cf_1"⟩, ⟨none, "u1", "cf_1"⟩] ∧
    toggleBookmarkTabs (some "u1") [] "cf_1" [⟨none, "u1", "cf_1"⟩] ≠
      some [⟨none, "u1", "cf_1"⟩] := by
  decide

/-- C5 amended: the bookmark mutations that are keyed are idempotent -
the part_004 add (an upsert keyed by contestId_userId) applied twice
equals applying it once, and the delete used by both variants applied
twice equals applying it once; the part_003 add is a bare insert and is
not covered. -/
theorem bookmark_ops_idempotent :
    ∀ (store : List BookmarkRow) (u c : String),
    bmUpsert (bmUpsert store u c) u c = bmUpsert store u c ∧
    bmDelete (bmDelete store u c) u c = bmDelete store u c :=
  fun store u c => ⟨bmUpsert_idem store u c, bmDelete_idem store u c⟩

/-- C6 counterexample: in the part_004 variant, a bookmark toggle with no
signed-in user does not stop at a sign-in prompt - it writes a bookmark
row under the fabricated placeholder identity default_user. -/
theorem toggle_writes_default_user :
    toggleBookmarkTracker none false "cf_1" [] =
      [⟨some "cf_1_default_user", "default_user", "cf_1"⟩] := by
  decide

/-- C6 amended: in the part_003 variant an unauthenticated bookmark
mutation performs no write and surfaces a sign-in prompt; in the part_004
variant an unauthenticated toggle instead issues the write under the
placeholder identity default_user (an upsert when the contest was not
bookmarked, a delete when it was). -/
theorem unauthenticated_toggle_behavior :
    ∀ (bookmarkedIds : List String) (contestId : String) (store : List BookmarkRow),
    toggleBookmarkTabs none bookmarkedIds contestId store = none ∧
    toggleBookmarkTracker none false contestId store = bmUpsert store "default_user" contestId ∧
    toggleBookmarkTracker none true contestId store = bmDelete store "default_user" contestId :=
  fun _ _ _ => ⟨rfl, rfl, rfl⟩

/-- C7 counterexample: the id synthesized for a Codeforces contest with
native id 1 is cf_1 - a fixed two-letter prefix joined with an
underscore - not the colon form platform:platform_native_id (neither
Codeforces:1 nor cf:1). -/
theorem contest_id_not_colon_form :
    (normalizeCf 0 ⟨1, "Round 1", 0, 3600⟩).id = "cf_1" ∧
    "cf_1" ≠ "Codeforces:1" ∧ "cf_1" ≠ "cf:1" := by
  refine ⟨rfl, by decide, by decide⟩

/-- C7 amended: normalization synthesizes the canonical id as a fixed
two-letter platform prefix followed by an underscore and the
platform-native identifier - cf_ with the numeric id, cc_ with the
contest code, lc_ with the title slug - deterministically, as a pure
function of the record. -/
theorem contest_id_prefix_form :
    ∀ (now : Int) (cf : CfRaw) (cc : CcRaw) (lc : LcRaw),
    (normalizeCf now cf).id = "cf_" ++ toString cf.id ∧
    (normalizeCc now cc).id = "cc_" ++ cc.contest_code ∧
    (normalizeLc now lc).id = "lc_" ++ lc.titleSlug :=
  fun _ _ _ _ => ⟨rfl, rfl, rfl⟩

/-- C8 counterexample: a CodeChef record whose end instant (5000) is
earlier than its start instant (10000) is normalized without any error
into a Contest whose end_time is still before its start_time - the
normalizer neither fails nor swaps nor clamps. -/
theorem normalize_accepts_inverted_times :
    (normalizeCc 0 ⟨"TEST1", "Test Contest", 10000, 5000⟩).start_time = 10000 ∧
    (normalizeCc 0 ⟨"TEST1", "Test Contest", 10000, 5000⟩).end_time = 5000 ∧
    (normalizeCc 0 ⟨"TEST1", "Test Contest", 10000, 5000⟩).end_time <
      (normalizeCc 0 ⟨"TEST1", "Test Contest", 10000, 5000⟩).start_time := by
  decide

/-- C8 amended: normalization performs no end-after-start validation and
has no failure path (it is a total function); the start and end instants
of a CodeChef record are passed through unchanged - never swapped and
never clamped - even when the end is before the start. -/
theorem normalize_passes_timestamps_through :
    ∀ (now : Int) (r : CcRaw),
    (normalizeCc now r).start_time = r.contest_start_ms ∧
    (normalizeCc now r).end_time = r.contest_end_ms :=
  fun _ _ => ⟨rfl, rfl⟩

/-- C9 counterexample: with one minute remaining (start minus now equal
to 60000 ms), the specification decomposition is zero days, zero hours,
one minute; the Contests page displays exactly that, but the Bookmarks
page (getTimeStatus) displays only zero days and zero hours, omitting the
minutes component - the call sites do not all compute the same displayed
value. -/
theorem time_display_sites_disagree :
    specTimeRemaining 60000 0 = (0, 0, 1) ∧
    getTimeRemainingTracker 60000 0 = TimeDisplay.dhm 0 0 1 ∧
    getTimeStatus 60000 0 = TimeDisplay.dh 0 0 ∧
    getTimeStatus 60000 0 ≠ TimeDisplay.dhm 0 0 1 := by
  decide

/-- C9 amended: before the start, every call site floors the same
difference the same way - the three Contests page variants all display
the day, hour and minute components of the truncated decomposition of
max(0, start minus now), and agree with each other; the Bookmarks page
variant computes the same day and hour components but omits the minutes
component. -/
theorem time_remaining_truncation (s e now : Int) (h : now < s) :
    getTimeRemaining s e now =
      TimeDisplay.dhm (specTimeRemaining s now).1 (specTimeRemaining s now).2.1
        (specTimeRemaining s now).2.2 ∧
    getTimeRemainingTracker s now = getTimeRemaining s e now ∧
    getTimeRemainingUpcoming s now = getTimeRemaining s e now ∧
    getTimeStatus s now = TimeDisplay.dh (specTimeRemaining s now).1 (specTimeRemaining s now).2.1 := by
  have hmax : max (0 : Int) (s - now) = s - now := by omega
  have h1 : ¬ (s - now ≤ 0) := by omega
  have h2 : (0 : Int) < s - now := by omega
  refine ⟨?_, ?_, ?_, ?_⟩ <;>
    simp [getTimeRemaining, getTimeRemainingTracker, getTimeRemainingUpcoming, getTimeStatus,
      specTimeRemaining, h, h1, h2, hmax]

theorem time_remaining_truncation_witness :
    ((0 : Int) < 90060000) ∧
    getTimeRemaining 90060000 90060001 0 = TimeDisplay.dhm 1 1 1 := by
  constructor
  · decide
  · have h := (time_remaining_truncation 90060000 90060001 0 (by decide)).1
    rw [h]
    decide
